/-
Verification of the page-rendering session manager of pdf-simple
(src/pdf-document.ts, src/index.ts, src/types.ts).

Shallow embedding notes:
* JavaScript numbers that flow through page-selection validation are
  modelled as rationals (ℚ): the comparisons `p < 1`, `p > N` performed by
  the code are exact on every finite double, and rationals let us express
  non-integer page numbers, which the code never rules out.  (NaN/Infinity
  inputs are outside this model.)
* Interpolated error-message templates are modelled as an inductive
  `ErrMsg` whose constructors carry the interpolated values, one
  constructor per template string in the source.
* The rendering backends (pdfjs-dist canvas rendering, PDFium bitmap +
  sharp encoding) are external adapters per the module boundary: a page
  render is an abstract function from page number to either a raw engine
  failure or a pixel payload.  Font-warning capture (`throwOnFontError`)
  is not modelled; the development follows the default
  `throwOnFontError = false` path.
-/
import Mathlib

namespace PdfSimple

/-- The closed error-code enumeration `PdfErrorCode` of `src/types.ts`. -/
inductive PdfErrorCode where
  | INVALID_INPUT
  | FILE_NOT_FOUND
  | INVALID_PDF
  | PASSWORD_REQUIRED
  | INVALID_PASSWORD
  | INVALID_PAGE_NUMBER
  | RENDER_FAILED
  | DOCUMENT_CLOSED
  | UNKNOWN
deriving DecidableEq, Repr

/-- The interpolated message templates that `pdf-document.ts` passes to
`new PdfError(...)`, one constructor per template, carrying the
interpolated values. -/
inductive ErrMsg where
  /-- Template `Invalid page number: ${p}. Document has ${n} pages.` -/
  | invalidPageNumber (p : ℚ) (pageCount : ℕ)
  /-- Template `Invalid start page: ${start}. Document has ${n} pages.` -/
  | invalidStartPage (start : ℚ) (pageCount : ℕ)
  /-- Template `Invalid end page: ${end}. Document has ${n} pages.` -/
  | invalidEndPage (stop : ℚ) (pageCount : ℕ)
  /-- Literal `Document has been closed` -/
  | documentClosed
  /-- Literal `Invalid PDF file` -/
  | invalidPdfFile
  /-- Literal `Incorrect password` -/
  | incorrectPassword
  /-- Literal `Password required to open this PDF` -/
  | passwordRequired
  /-- Template `Failed to render page ${p}: ${cause}` -/
  | renderFailed (p : ℚ) (cause : String)
  /-- a raw message passed through unchanged -/
  | raw (text : String)
deriving DecidableEq, Repr

/-- The `PdfError` value of `src/types.ts`: an error code plus a
human-readable message (the opaque `cause` is diagnostic only and not
modelled). -/
structure PdfError where
  code : PdfErrorCode
  message : ErrMsg
deriving DecidableEq, Repr

/-- The value `new PdfError('Document has been closed', 'DOCUMENT_CLOSED')` as thrown
by `ensureOpen`. -/
def docClosedErr : PdfError :=
  ⟨.DOCUMENT_CLOSED, .documentClosed⟩

/-- The value `new PdfError('Invalid page number: ...', 'INVALID_PAGE_NUMBER')`. -/
def invalidPageErr (p : ℚ) (pageCount : ℕ) : PdfError :=
  ⟨.INVALID_PAGE_NUMBER, .invalidPageNumber p pageCount⟩

/-- The `pages` field of `RenderOptions`: `number[] | PageRange`.  A
`PageRange` is `{ start?: number; end?: number }`. -/
inductive PageSel where
  | list (pages : List ℚ)
  | range (rangeStart : Option ℚ) (rangeEnd : Option ℚ)
deriving DecidableEq, Repr

/-- The first element of `pages` failing the loop test
`p < 1 || p > pageCount` in `resolvePageNumbers` (the loop throws at the
first offending element). -/
def firstOutOfRange (pageCount : ℕ) : List ℚ → Option ℚ
  | [] => none
  | p :: rest =>
    if p < 1 ∨ p > (pageCount : ℚ) then some p else firstOutOfRange pageCount rest

/-- JavaScript `ToLength` as used by `Array.from({ length: len })`: a
non-positive length yields 0, a positive fractional length is truncated. -/
def jsToLength (len : ℚ) : ℕ :=
  if len ≤ 0 then 0 else ⌊len⌋.toNat

/-- Evaluation of `Array.from({ length: len }, (_, i) => start + i)`. -/
def jsArrayFrom (len : ℚ) (start : ℚ) : List ℚ :=
  (List.range (jsToLength len)).map (fun i : ℕ => start + (i : ℚ))

/-- Method `PdfDocumentImpl.resolvePageNumbers(pages)` (identical in the
pdfjs-dist and PDFium variants), with `this.pageCount` passed explicitly:
* `undefined` → `Array.from({ length: pageCount }, (_, i) => i + 1)`;
* an array → throw `INVALID_PAGE_NUMBER` at the first element `p` with
  `p < 1 || p > pageCount`, else return the array unmodified;
* a range → `start = pages.start ?? 1`, `end = pages.end ?? pageCount`,
  throw on `start < 1 || start > pageCount`, then on
  `end < start || end > pageCount`, else
  `Array.from({ length: end - start + 1 }, (_, i) => start + i)`. -/
def resolvePageNumbers (pages : Option PageSel) (pageCount : ℕ) :
    Except PdfError (List ℚ) :=
  match pages with
  | none => .ok ((List.range pageCount).map (fun i : ℕ => (i : ℚ) + 1))
  | some (.list ps) =>
    match firstOutOfRange pageCount ps with
    | some p => .error (invalidPageErr p pageCount)
    | none => .ok ps
  | some (.range rs re) =>
    let start := rs.getD 1
    let stop := re.getD (pageCount : ℚ)
    if start < 1 ∨ start > (pageCount : ℚ) then
      .error ⟨.INVALID_PAGE_NUMBER, .invalidStartPage start pageCount⟩
    else if stop < start ∨ stop > (pageCount : ℚ) then
      .error ⟨.INVALID_PAGE_NUMBER, .invalidEndPage stop pageCount⟩
    else
      .ok (jsArrayFrom (stop - start + 1) start)

/-! ## Document session state -/

/-- The lifecycle-relevant state of a `PdfDocumentImpl` instance: the
`closed` flag, the adapter-reported page count of the (read-only) document
handle, and an instrumentation counter `destroyed` recording how many
times `document.destroy()` has been invoked on the handle.  (The counter
is ghost state: nothing in the source reads it; it lets theorems speak
about double release.) -/
structure Session where
  closed : Bool
  numPages : ℕ
  destroyed : ℕ
deriving DecidableEq, Repr

/-- The state of a freshly opened session: `PdfDocumentImpl`'s constructor
initialises `closed = false` and no destroy has happened yet. -/
def freshSession (numPages : ℕ) : Session :=
  ⟨false, numPages, 0⟩

/-- Whether `document.destroy()` itself raised: `close()` awaits it, so a
raising destroy makes the `close()` promise reject (after the state
update). -/
inductive CloseOutcome where
  | ok
  | raised
deriving DecidableEq, Repr

/-- Method `PdfDocumentImpl.close()` (identical lifecycle logic in both backend
variants):
```
if (this.closed) { return; }
this.closed = true;
await this.document.destroy();
```
The flag is set *before* destroy runs, so a raising destroy still leaves
the session closed.  `destroyRaises` says whether the underlying
`destroy()` call raises when it is actually invoked. -/
def closeSession (destroyRaises : Bool) (s : Session) : Session × CloseOutcome :=
  if s.closed then (s, .ok)
  else ({ s with closed := true, destroyed := s.destroyed + 1 },
        if destroyRaises then .raised else .ok)

/-- The `pageCount` getter: `ensureOpen()` then `this.document.numPages`
(pdfjs) / `this.document.getPageCount()` (PDFium). -/
def pageCountOp (s : Session) : Except PdfError ℕ :=
  if s.closed then .error docClosedErr else .ok s.numPages

/-- The raw pixel payload an engine render produces for one page
(`getPage` + viewport/canvas render + `toBuffer`, or PDFium
`page.render` + sharp encoding).  The bytes are opaque to the session
logic, so the buffer is an abstract token. -/
structure RenderPayload where
  buffer : ℕ
  width : ℤ
  height : ℤ
deriving DecidableEq, Repr

/-- The rendering-engine + image-encoder adapter boundary: rasterise and
encode one page, or fail with a raw engine error message. -/
def Adapter : Type :=
  ℚ → Except String RenderPayload

/-- The `RenderedPage` record assembled by `renderPageInternal`. -/
structure RenderedPage where
  pageNumber : ℚ
  totalPages : ℕ
  buffer : ℕ
  width : ℤ
  height : ℤ
deriving DecidableEq, Repr

/-- Method `PdfDocumentImpl.renderPageInternal(pageNumber, options)` with the
engine work abstracted behind `a`: on success assemble the
`RenderedPage` record (`pageNumber`, `totalPages: this.pageCount`,
buffer, width, height); on an engine failure wrap it as
`RENDER_FAILED` with the page number embedded in the message.
(Font-warning escalation is off: default `throwOnFontError = false`.) -/
def renderPageInternal (a : Adapter) (s : Session) (p : ℚ) :
    Except PdfError RenderedPage :=
  match a p with
  | .ok payload => .ok ⟨p, s.numPages, payload.buffer, payload.width, payload.height⟩
  | .error cause => .error ⟨.RENDER_FAILED, .renderFailed p cause⟩

/-- Method `PdfDocumentImpl.renderPage(pageNumber, options)`: `ensureOpen()`,
then the bounds check `pageNumber < 1 || pageNumber > this.pageCount`
throwing `INVALID_PAGE_NUMBER`, then delegate to `renderPageInternal`. -/
def renderPage (a : Adapter) (s : Session) (p : ℚ) :
    Except PdfError RenderedPage :=
  if s.closed then .error docClosedErr
  else if p < 1 ∨ p > (s.numPages : ℚ) then .error (invalidPageErr p s.numPages)
  else renderPageInternal a s p

/-- A generator object returned by calling the async generator method
`renderPages(options)`.  Calling an async generator function runs none of
its body: the call merely captures the receiver and arguments.  The body
(`ensureOpen`, `resolvePageNumbers`, the render loop) runs only as the
consumer advances the generator. -/
structure PdfGenerator where
  session : Session
  pages : Option PageSel
deriving DecidableEq, Repr

/-- Method `PdfDocumentImpl.renderPages(options)`: the call itself is total — it
only allocates the generator object. -/
def renderPagesCall (s : Session) (sel : Option PageSel) : PdfGenerator :=
  ⟨s, sel⟩

/-- The observable behaviour of consuming a generator to its end: the
pages yielded, and whether consumption ended in an error (raised after
the listed yields) or in normal exhaustion. -/
inductive GenOutcome where
  | failed (yielded : List RenderedPage) (e : PdfError)
  | done (yielded : List RenderedPage)
deriving DecidableEq, Repr

/-- The pages a generator run delivered before finishing or raising. -/
def GenOutcome.yielded : GenOutcome → List RenderedPage
  | .failed ys _ => ys
  | .done ys => ys

/-- The render loop of `renderPages`:
`for (const pageNumber of pageNumbers) yield await this.renderPageInternal(...)`.
A failing render raises at that point; earlier yields stand. -/
def runPages (a : Adapter) (s : Session) : List ℚ → GenOutcome
  | [] => .done []
  | p :: rest =>
    match renderPageInternal a s p with
    | .error e => .failed [] e
    | .ok rp =>
      match runPages a s rest with
      | .done ys => .done (rp :: ys)
      | .failed ys e => .failed (rp :: ys) e

/-- Running the body of a `renderPages` generator (which starts on the
first advance): `ensureOpen()`, then `resolvePageNumbers(options.pages)`
— both raising before any yield — then the render loop. -/
def genRun (a : Adapter) (g : PdfGenerator) : GenOutcome :=
  if g.session.closed then .failed [] docClosedErr
  else
    match resolvePageNumbers g.pages g.session.numPages with
    | .error e => .failed [] e
    | .ok ps => runPages a g.session ps

/-! ## Operation traces over one session

Only `close()` writes the `closed` flag or invokes `document.destroy()`:
`pageCount`, `renderPage`, `renderPages` and `renderPageInternal` read
lifecycle state but never assign `this.closed` and never call
`this.document.destroy()` (checked against both backend variants), so in
the lifecycle state they are identities. -/

/-- One public operation invoked on a session. -/
inductive SessionOp where
  | opPageCount
  | opRenderPage (p : ℚ)
  | opRenderPages (sel : Option PageSel)
  | opClose (destroyRaises : Bool)
deriving DecidableEq, Repr

/-- The effect of one operation on the lifecycle state: `close()` as in
`closeSession`; every other operation leaves `closed`/`destroyed`
untouched. -/
def applyOp (s : Session) : SessionOp → Session
  | .opClose b => (closeSession b s).1
  | .opPageCount => s
  | .opRenderPage _ => s
  | .opRenderPages _ => s

/-- Running a whole sequence of operations on a session. -/
def runOps (s : Session) (ops : List SessionOp) : Session :=
  ops.foldl applyOp s

/-! ## The auto-closing convenience generator (`src/index.ts`) -/

/-- How far the consumer drives the sequence: to exhaustion, or
abandoning it after `k` items (early termination via the generator's
`return`, which still runs the `finally` block). -/
inductive Consumption where
  | all
  | stopAfter (k : ℕ)
deriving DecidableEq, Repr

/-- What the consumer observes of a generator outcome under a given
consumption: the items actually delivered and the error propagated to
the consumer, if consumption reached it.  Stopping within the yielded
prefix means a later error is never reached. -/
def consumed (c : Consumption) (g : GenOutcome) : List RenderedPage × Option PdfError :=
  match c, g with
  | .all, .done ys => (ys, none)
  | .all, .failed ys e => (ys, some e)
  | .stopAfter k, .done ys => (ys.take k, none)
  | .stopAfter k, .failed ys e =>
    if k ≤ ys.length then (ys.take k, none) else (ys, some e)

/-- The complete result of driving `renderPdfPages` with a consumer:
delivered pages, propagated error, and the session's final state. -/
structure AutoCloseRun where
  yielded : List RenderedPage
  err : Option PdfError
  finalSession : Session
deriving DecidableEq, Repr

/-- Function `renderPdfPages(input, options)` of `src/index.ts`, from the
point where `openPdf` has produced the open session `s`:
```
try { yield* pdf.renderPages(options); } finally { await pdf.close(); }
```
The `finally` block runs `close()` on every exit path — exhaustion, early
termination via the generator protocol, or an error raised while
rendering.  `b` says whether the handle's destroy raises when invoked. -/
def renderPdfPagesRun (a : Adapter) (b : Bool) (s : Session)
    (sel : Option PageSel) (c : Consumption) : AutoCloseRun :=
  let out := consumed c (genRun a (renderPagesCall s sel))
  { yielded := out.1, err := out.2, finalSession := (closeSession b s).1 }

/-! ## Error classification of adapter failures at open
(`wrapPdfjsError`, `wrapPdfiumError`)

JavaScript string operations are modelled on the underlying character
lists; `toLowerCase` is modelled on the ASCII range, which covers every
keyword the classifiers match on. -/

/-- Whether `pat` is a prefix of `hay` (over character lists). -/
def charsStartWith : List Char → List Char → Bool
  | _, [] => true
  | [], _ :: _ => false
  | h :: hs, p :: ps => h == p && charsStartWith hs ps

/-- Whether `pat` occurs contiguously somewhere in `hay`. -/
def charsHaveSub : List Char → List Char → Bool
  | [], pat => pat.isEmpty
  | h :: t, pat => charsStartWith (h :: t) pat || charsHaveSub t pat

/-- JavaScript `hay.includes(pat)`: substring containment. -/
def strIncludes (hay pat : String) : Bool :=
  charsHaveSub hay.data pat.data

/-- ASCII lowering of one character, as `toLowerCase` acts on ASCII. -/
def charLower (c : Char) : Char :=
  if 'A' ≤ c ∧ c ≤ 'Z' then Char.ofNat (c.toNat + 32) else c

/-- JavaScript `message.toLowerCase()` restricted to ASCII input. -/
def strLower (s : String) : String :=
  ⟨s.data.map charLower⟩

/-- Function `wrapPdfjsError(error)` of the pdfjs-dist variant, given the
underlying error's message (a raw adapter failure is never already a
`PdfError`, so the instanceof passthrough at the top does not apply):
case-sensitive matching, `'Invalid PDF'` first, then `'password'` with
`'incorrect'`. -/
def wrapPdfjsError (message : String) : PdfError :=
  if strIncludes message "Invalid PDF" then ⟨.INVALID_PDF, .invalidPdfFile⟩
  else if strIncludes message "password" then
    if strIncludes message "incorrect" then ⟨.INVALID_PASSWORD, .incorrectPassword⟩
    else ⟨.PASSWORD_REQUIRED, .passwordRequired⟩
  else ⟨.UNKNOWN, .raw message⟩

/-- Function `wrapPdfiumError(error)` of the PDFium variant, given the
underlying error's message: the message is lowercased, structural tokens
(`invalid` / `not a pdf` / `format`) are checked first, then `password`
with `incorrect` / `wrong`. -/
def wrapPdfiumError (message : String) : PdfError :=
  let lower := strLower message
  if strIncludes lower "invalid" || strIncludes lower "not a pdf" ||
      strIncludes lower "format" then
    ⟨.INVALID_PDF, .invalidPdfFile⟩
  else if strIncludes lower "password" then
    if strIncludes lower "incorrect" || strIncludes lower "wrong" then
      ⟨.INVALID_PASSWORD, .incorrectPassword⟩
    else ⟨.PASSWORD_REQUIRED, .passwordRequired⟩
  else ⟨.UNKNOWN, .raw message⟩

/-! ## Lemmas about the page selector -/

theorem firstOutOfRange_eq_none {N : ℕ} {ps : List ℚ} :
    firstOutOfRange N ps = none ↔ ∀ p ∈ ps, 1 ≤ p ∧ p ≤ (N : ℚ) := by
  induction ps with
  | nil => simp [firstOutOfRange]
  | cons p rest ih =>
    by_cases h : p < 1 ∨ p > (N : ℚ)
    · have hstep : firstOutOfRange N (p :: rest) = some p := by
        simp only [firstOutOfRange]; rw [if_pos h]
      rw [hstep]
      constructor
      · intro hc; cases hc
      · intro hall
        rcases h with h | h
        · exact absurd (hall p (by simp)).1 (not_le.mpr h)
        · exact absurd (hall p (by simp)).2 (not_le.mpr h)
    · have hstep : firstOutOfRange N (p :: rest) = firstOutOfRange N rest := by
        simp only [firstOutOfRange]; rw [if_neg h]
      rw [hstep, ih]
      constructor
      · intro hall q hq
        rcases List.mem_cons.mp hq with rfl | hq
        · exact ⟨not_lt.mp fun hlt => h (Or.inl hlt),
            not_lt.mp fun hlt => h (Or.inr hlt)⟩
        · exact hall q hq
      · intro hall q hq
        exact hall q (List.mem_cons_of_mem _ hq)

theorem firstOutOfRange_append {N : ℕ} {pre : List ℚ} {p : ℚ} {rest : List ℚ}
    (hpre : ∀ q ∈ pre, 1 ≤ q ∧ q ≤ (N : ℚ)) (hp : p < 1 ∨ p > (N : ℚ)) :
    firstOutOfRange N (pre ++ p :: rest) = some p := by
  induction pre with
  | nil => simp [firstOutOfRange, if_pos hp]
  | cons q pre' ih =>
    have hq := hpre q (by simp)
    have : ¬(q < 1 ∨ q > (N : ℚ)) := by push_neg; exact hq
    simp only [List.cons_append, firstOutOfRange, if_neg this]
    exact ih (fun r hr => hpre r (by simp [hr]))

/-- Claim C8: for every page count N ≥ 0, resolving an absent page
selection returns exactly the ascending identity sequence
`[1, 2, ..., N]` (empty when N = 0). -/
theorem resolve_absent_identity (N : ℕ) :
    resolvePageNumbers none N = .ok ((List.range' 1 N).map (fun n : ℕ => (n : ℚ))) := by
  have hmap : (List.range N).map (fun i : ℕ => (i : ℚ) + 1) =
      (List.range' 1 N).map (fun n : ℕ => (n : ℚ)) := by
    rw [List.range'_eq_map_range, List.map_map]
    refine List.map_congr_left ?_
    intro i _
    simp only [Function.comp_apply]
    push_cast
    ring
  simp only [resolvePageNumbers]
  rw [hmap]

/-- Claim C4 (amended): explicit-list resolution validates each element
only against the bounds `1 ≤ p ≤ N` — there is no integrality check — and
throws `INVALID_PAGE_NUMBER` referencing the first out-of-bounds element;
when every element is within bounds it returns the list unmodified,
preserving duplicates and order. -/
theorem resolve_list_bounds (N : ℕ) (ps : List ℚ) :
    ((∀ p ∈ ps, 1 ≤ p ∧ p ≤ (N : ℚ)) →
        resolvePageNumbers (some (.list ps)) N = .ok ps)
    ∧ (∀ (pre : List ℚ) (p : ℚ) (rest : List ℚ),
        ps = pre ++ p :: rest →
        (∀ q ∈ pre, 1 ≤ q ∧ q ≤ (N : ℚ)) →
        (p < 1 ∨ p > (N : ℚ)) →
        resolvePageNumbers (some (.list ps)) N = .error (invalidPageErr p N)) := by
  constructor
  · intro hall
    simp [resolvePageNumbers, firstOutOfRange_eq_none.mpr hall]
  · intro pre p rest hps hpre hp
    subst hps
    simp [resolvePageNumbers, firstOutOfRange_append hpre hp]

/-- Witness for C4 at N = 5, L = [3, 1, 1]: duplicates and caller order
are preserved. -/
theorem resolve_list_bounds_witness :
    resolvePageNumbers (some (.list [3, 1, 1])) 5 = .ok [3, 1, 1] :=
  (resolve_list_bounds 5 [3, 1, 1]).1 (by norm_num)

/-- Counterexample to C4 as stated: the non-integer 3/2 lies within the
bounds `[1, 5]`, is not an integer, and resolution *succeeds*, returning
it unchanged — the code never performs the integrality check the claim
describes. -/
theorem resolve_list_no_integrality_check :
    resolvePageNumbers (some (.list [(3 / 2 : ℚ)])) 5 = .ok [(3 / 2 : ℚ)]
    ∧ (¬ ∃ z : ℤ, (3 / 2 : ℚ) = (z : ℚ))
    ∧ 1 ≤ (3 / 2 : ℚ) ∧ (3 / 2 : ℚ) ≤ 5 := by
  refine ⟨?_, ?_, by norm_num, by norm_num⟩
  · have hnone : firstOutOfRange 5 [(3 / 2 : ℚ)] = none := by
      simp only [firstOutOfRange]
      rw [if_neg (by norm_num)]
    simp [resolvePageNumbers, hnone]
  · rintro ⟨z, hz⟩
    have h1 : (1 : ℚ) < (z : ℚ) := by rw [← hz]; norm_num
    have h2 : (z : ℚ) < 2 := by rw [← hz]; norm_num
    have h1' : (1 : ℤ) < z := by exact_mod_cast h1
    have h2' : z < 2 := by exact_mod_cast h2
    omega

theorem jsArrayFrom_int (s e : ℤ) (h1 : 0 < s) (h2 : s ≤ e) :
    jsArrayFrom ((e : ℚ) - (s : ℚ) + 1) (s : ℚ) =
      (List.range' s.toNat (e - s + 1).toNat).map (fun n : ℕ => (n : ℚ)) := by
  have hlen : ((e : ℚ) - (s : ℚ) + 1) = ((e - s + 1 : ℤ) : ℚ) := by push_cast; ring
  have hpos : (0 : ℤ) < e - s + 1 := by omega
  have hq : ¬ ((e : ℚ) - (s : ℚ) + 1 ≤ 0) := by
    rw [hlen]
    push_neg
    exact_mod_cast hpos
  have hfloor : jsToLength ((e : ℚ) - (s : ℚ) + 1) = (e - s + 1).toNat := by
    rw [jsToLength, if_neg hq, hlen, Int.floor_intCast]
  rw [jsArrayFrom, hfloor, List.range'_eq_map_range, List.map_map]
  refine List.map_congr_left ?_
  intro i _
  simp only [Function.comp_apply]
  have hcast : ((s.toNat : ℕ) : ℚ) = (s : ℚ) := by
    exact_mod_cast congrArg (fun z : ℤ => (z : ℚ)) (Int.toNat_of_nonneg h1.le)
  push_cast
  rw [hcast]

/-- Claim C3: range resolution over a selection whose bounds are integers
or absent.  Effective `start = selection.start ?? 1` and
`end = selection.end ?? N`; `INVALID_PAGE_NUMBER` when `start < 1` or
`start > N`; then `INVALID_PAGE_NUMBER` when `end < start` or `end > N`;
otherwise the ascending sequence `[start, start+1, ..., end]` (a single
page when `start = end`). -/
theorem resolve_range_spec (N : ℕ) (so eo : Option ℤ) (st en : ℤ)
    (sel : Option PageSel)
    (hst0 : st = so.getD 1) (hen0 : en = eo.getD (N : ℤ))
    (hsel : sel =
      some (.range (so.map (fun z : ℤ => (z : ℚ))) (eo.map (fun z : ℤ => (z : ℚ))))) :
    ((st < 1 ∨ st > (N : ℤ)) →
        resolvePageNumbers sel N =
          .error ⟨.INVALID_PAGE_NUMBER, .invalidStartPage (st : ℚ) N⟩)
    ∧ (1 ≤ st → st ≤ (N : ℤ) → (en < st ∨ en > (N : ℤ)) →
        resolvePageNumbers sel N =
          .error ⟨.INVALID_PAGE_NUMBER, .invalidEndPage (en : ℚ) N⟩)
    ∧ (1 ≤ st → st ≤ (N : ℤ) → st ≤ en → en ≤ (N : ℤ) →
        resolvePageNumbers sel N =
          .ok ((List.range' st.toNat (en - st + 1).toNat).map (fun n : ℕ => (n : ℚ)))) := by
  subst hsel
  have hst : (so.map (fun z : ℤ => (z : ℚ))).getD 1 = (st : ℚ) := by
    subst hst0
    cases so <;> simp
  have hen : (eo.map (fun z : ℤ => (z : ℚ))).getD ((N : ℕ) : ℚ) = (en : ℚ) := by
    subst hen0
    cases eo <;> simp
  refine ⟨?_, ?_, ?_⟩
  · intro hbad
    have hcond : (st : ℚ) < 1 ∨ (st : ℚ) > (N : ℚ) := by
      rcases hbad with h | h
      · exact Or.inl (by exact_mod_cast h)
      · exact Or.inr (by exact_mod_cast h)
    simp only [resolvePageNumbers, hst, hen]
    rw [if_pos hcond]
  · intro hs1 hs2 hbad
    have hgood : ¬ ((st : ℚ) < 1 ∨ (st : ℚ) > (N : ℚ)) := by
      push_neg
      constructor
      · exact_mod_cast hs1
      · exact_mod_cast hs2
    have hcond : (en : ℚ) < (st : ℚ) ∨ (en : ℚ) > (N : ℚ) := by
      rcases hbad with h | h
      · exact Or.inl (by exact_mod_cast h)
      · exact Or.inr (by exact_mod_cast h)
    simp only [resolvePageNumbers, hst, hen]
    rw [if_neg hgood, if_pos hcond]
  · intro hs1 hs2 he1 he2
    have hgood : ¬ ((st : ℚ) < 1 ∨ (st : ℚ) > (N : ℚ)) := by
      push_neg
      constructor
      · exact_mod_cast hs1
      · exact_mod_cast hs2
    have hgood2 : ¬ ((en : ℚ) < (st : ℚ) ∨ (en : ℚ) > (N : ℚ)) := by
      push_neg
      constructor
      · exact_mod_cast he1
      · exact_mod_cast he2
    simp only [resolvePageNumbers, hst, hen]
    rw [if_neg hgood, if_neg hgood2, jsArrayFrom_int st en (by omega) he1]

/-- Witness for C3 at N = 5, range {start: 2, end: 4} → [2, 3, 4]. -/
theorem resolve_range_spec_witness :
    resolvePageNumbers (some (.range (some ((2 : ℤ) : ℚ)) (some ((4 : ℤ) : ℚ)))) 5 =
      .ok ((List.range' (2 : ℤ).toNat ((4 : ℤ) - 2 + 1).toNat).map (fun n : ℕ => (n : ℚ))) := by
  have h := (resolve_range_spec 5 (some 2) (some 4) 2 4 _ rfl rfl rfl).2.2
    (by norm_num) (by norm_num) (by norm_num) (by norm_num)
  simpa using h

/-! ## Lifecycle theorems -/

/-- An adapter that renders every page successfully, for concrete runs. -/
def okAdapter : Adapter :=
  fun _ => .ok ⟨0, 612, 792⟩

/-- Claim C1: after `close()` has been called once (whether or not the
underlying destroy raised), the session is closed; `pageCount`,
`renderPage` and `renderPages` all fail with `DOCUMENT_CLOSED`; and a
second `close()` returns with no error and leaves the state — including
the destroy count — untouched. -/
theorem close_is_absorbing_and_idempotent (s : Session) (b bAgain : Bool)
    (a : Adapter) (p : ℚ) (sel : Option PageSel) :
    let s1 := (closeSession b s).1
    s1.closed = true
    ∧ pageCountOp s1 = .error docClosedErr
    ∧ renderPage a s1 p = .error docClosedErr
    ∧ genRun a (renderPagesCall s1 sel) = .failed [] docClosedErr
    ∧ closeSession bAgain s1 = (s1, .ok) := by
  intro s1
  have hclosed : s1.closed = true := by
    by_cases h : s.closed
    · simp [s1, closeSession, if_pos h, h]
    · simp [s1, closeSession, if_neg h]
  refine ⟨hclosed, ?_, ?_, ?_, ?_⟩
  · rw [pageCountOp, if_pos (by rw [hclosed])]
  · rw [renderPage, if_pos (by rw [hclosed])]
  · rw [genRun]
    simp only [renderPagesCall]
    rw [if_pos (by rw [hclosed])]
  · rw [closeSession, if_pos (by rw [hclosed])]

/-- If a session is already closed, no operation changes its state at
all. -/
theorem runOps_of_closed (ops : List SessionOp) (s : Session)
    (h : s.closed = true) : runOps s ops = s := by
  induction ops generalizing s with
  | nil => rfl
  | cons op rest ih =>
    have hstep : applyOp s op = s := by
      cases op with
      | opClose b => simp [applyOp, closeSession, if_pos h]
      | opPageCount => rfl
      | opRenderPage _ => rfl
      | opRenderPages _ => rfl
    rw [runOps, List.foldl_cons, hstep]
    exact ih s h

/-- Claim C9: over every operation sequence, the closed flag is monotone
(once true it never becomes false), destroy is invoked only on the single
transition that sets the flag (so the flag is already true whenever
destroy runs, even a raising destroy), and the destroy count grows by at
most one over the whole trace. -/
theorem lifecycle_invariant (ops : List SessionOp) (s : Session) :
    (s.closed = true → (runOps s ops).closed = true)
    ∧ (runOps s ops).destroyed ≤ s.destroyed + (if s.closed then 0 else 1)
    ∧ (∀ (t : Session) (op : SessionOp),
        t.destroyed < (applyOp t op).destroyed →
        t.closed = false ∧ (applyOp t op).closed = true) := by
  refine ⟨?_, ?_, ?_⟩
  · intro h
    rw [runOps_of_closed ops s h]
    exact h
  · induction ops generalizing s with
    | nil => simp [runOps]
    | cons op rest ih =>
      by_cases h : s.closed
      · rw [runOps_of_closed (op :: rest) s h]
        simp [h]
      · cases op with
        | opClose b =>
          have hstep : applyOp s (.opClose b) =
              { s with closed := true, destroyed := s.destroyed + 1 } := by
            simp [applyOp, closeSession, if_neg h]
          have hrun : runOps s (.opClose b :: rest) =
              runOps { s with closed := true, destroyed := s.destroyed + 1 } rest := by
            rw [runOps, List.foldl_cons, hstep]
            rfl
          rw [hrun, runOps_of_closed rest _ rfl]
          simp [h]
        | opPageCount =>
          rw [runOps, List.foldl_cons]
          exact ih s
        | opRenderPage _ =>
          rw [runOps, List.foldl_cons]
          exact ih s
        | opRenderPages _ =>
          rw [runOps, List.foldl_cons]
          exact ih s
  · intro t op hlt
    cases op with
    | opClose b =>
      by_cases h : t.closed
      · exfalso
        have : applyOp t (.opClose b) = t := by
          simp [applyOp, closeSession, if_pos h]
        rw [this] at hlt
        exact lt_irrefl _ hlt
      · refine ⟨by simpa using h, ?_⟩
        simp [applyOp, closeSession, if_neg h]
    | opPageCount => exact absurd hlt (lt_irrefl _)
    | opRenderPage _ => exact absurd hlt (lt_irrefl _)
    | opRenderPages _ => exact absurd hlt (lt_irrefl _)

/-- Witness for C9: a concrete trace with a render after a close (whose
destroy raises) keeps the flag set and the destroy count at one. -/
theorem lifecycle_invariant_witness :
    ((runOps ⟨true, 3, 1⟩
        [SessionOp.opPageCount, SessionOp.opClose true]).closed = true)
    ∧ (runOps (freshSession 3)
        [SessionOp.opClose true, SessionOp.opRenderPage 1,
          SessionOp.opClose false]).destroyed ≤ 0 + (if false then 0 else 1) :=
  ⟨(lifecycle_invariant [SessionOp.opPageCount, SessionOp.opClose true]
      ⟨true, 3, 1⟩).1 rfl,
    (lifecycle_invariant [SessionOp.opClose true, SessionOp.opRenderPage 1,
      SessionOp.opClose false] (freshSession 3)).2.1⟩

/-- Claim C6: on an open session, `renderPage(p)` with `p < 1` or `p > N`
fails with `INVALID_PAGE_NUMBER` without consulting the rendering
adapter (the result is the same under every adapter), and with
`1 ≤ p ≤ N` validation passes and the call is exactly the delegation to
`renderPageInternal`. -/
theorem renderPage_validates_bounds (s : Session) (p : ℚ) (a a' : Adapter)
    (hopen : s.closed = false) :
    ((p < 1 ∨ p > (s.numPages : ℚ)) →
        renderPage a s p = .error (invalidPageErr p s.numPages)
        ∧ renderPage a s p = renderPage a' s p)
    ∧ (1 ≤ p → p ≤ (s.numPages : ℚ) →
        renderPage a s p = renderPageInternal a s p) := by
  constructor
  · intro hbad
    have h1 : renderPage a s p = .error (invalidPageErr p s.numPages) := by
      rw [renderPage, if_neg (by rw [hopen]; exact Bool.false_ne_true),
        if_pos hbad]
    have h2 : renderPage a' s p = .error (invalidPageErr p s.numPages) := by
      rw [renderPage, if_neg (by rw [hopen]; exact Bool.false_ne_true),
        if_pos hbad]
    exact ⟨h1, h1.trans h2.symm⟩
  · intro h1 h2
    rw [renderPage, if_neg (by rw [hopen]; exact Bool.false_ne_true),
      if_neg (by push_neg; exact ⟨h1, h2⟩)]

/-- Witness for C6 on a 3-page document: pages 0 and 4 are rejected
identically under two different adapters, page 2 delegates. -/
theorem renderPage_validates_bounds_witness :
    renderPage okAdapter (freshSession 3) 0 = .error (invalidPageErr 0 3)
    ∧ renderPage okAdapter (freshSession 3) 4 =
        renderPage (fun _ => .error "engine crash") (freshSession 3) 4
    ∧ renderPage okAdapter (freshSession 3) 2 =
        renderPageInternal okAdapter (freshSession 3) 2 :=
  ⟨((renderPage_validates_bounds (freshSession 3) 0 okAdapter okAdapter rfl).1
      (by norm_num)).1,
    ((renderPage_validates_bounds (freshSession 3) 4 okAdapter
      (fun _ => .error "engine crash") rfl).1 (by norm_num [freshSession])).2,
    (renderPage_validates_bounds (freshSession 3) 2 okAdapter okAdapter rfl).2
      (by norm_num) (by norm_num [freshSession])⟩

/-! ## Streaming theorems -/

theorem renderPageInternal_ok_pageNumber {a : Adapter} {s : Session} {p : ℚ}
    {rp : RenderedPage} (h : renderPageInternal a s p = .ok rp) :
    rp.pageNumber = p := by
  rw [renderPageInternal] at h
  cases hap : a p with
  | ok payload =>
    rw [hap] at h
    cases h
    rfl
  | error e =>
    rw [hap] at h
    cases h

theorem runPages_all_ok (a : Adapter) (s : Session) (ps : List ℚ)
    (hok : ∀ p ∈ ps, ∃ rp, renderPageInternal a s p = .ok rp) :
    ∃ ys, runPages a s ps = .done ys
      ∧ ys.map RenderedPage.pageNumber = ps := by
  induction ps with
  | nil => exact ⟨[], rfl, rfl⟩
  | cons p rest ih =>
    obtain ⟨rp, hrp⟩ := hok p (by simp)
    obtain ⟨ys, hys, hmap⟩ := ih (fun q hq => hok q (List.mem_cons_of_mem _ hq))
    refine ⟨rp :: ys, ?_, ?_⟩
    · rw [runPages, hrp, hys]
    · simp [hmap, renderPageInternal_ok_pageNumber hrp]

/-- Claim C2: on an open session, the `renderPages` generator resolves the
selection first — a failing resolution raises its `InvalidPageNumber`
error before any page is yielded — and on a successful resolution (with
every resolved page rendering) it yields exactly one `RenderedPage` per
resolved page number, stamped with that number, in exactly the selector's
order. -/
theorem renderPages_eager_validation_lazy_stream (a : Adapter) (s : Session)
    (sel : Option PageSel) (hopen : s.closed = false) :
    (∀ e, resolvePageNumbers sel s.numPages = .error e →
        genRun a (renderPagesCall s sel) = .failed [] e)
    ∧ (∀ ps, resolvePageNumbers sel s.numPages = .ok ps →
        (∀ p ∈ ps, ∃ rp, renderPageInternal a s p = .ok rp) →
        ∃ ys, genRun a (renderPagesCall s sel) = .done ys
          ∧ ys.map RenderedPage.pageNumber = ps) := by
  have hnc : ¬ ((renderPagesCall s sel).session.closed = true) := by
    simp [renderPagesCall, hopen]
  constructor
  · intro e he
    rw [genRun, if_neg hnc]
    simp only [renderPagesCall] at he ⊢
    rw [he]
  · intro ps hps hok
    obtain ⟨ys, hys, hmap⟩ := runPages_all_ok a s ps hok
    refine ⟨ys, ?_, hmap⟩
    rw [genRun, if_neg hnc]
    simp only [renderPagesCall] at hps ⊢
    rw [hps]
    exact hys

/-- Witness for C2: a fresh 2-page session with an always-succeeding
adapter yields pages numbered [1, 2] in order; and an out-of-range list
raises `INVALID_PAGE_NUMBER` before any yield. -/
theorem renderPages_eager_validation_lazy_stream_witness :
    (∃ ys, genRun okAdapter (renderPagesCall (freshSession 2) none) = .done ys
      ∧ ys.map RenderedPage.pageNumber = [1, 2])
    ∧ genRun okAdapter (renderPagesCall (freshSession 2) (some (.list [3]))) =
        .failed [] (invalidPageErr 3 2) := by
  constructor
  · refine (renderPages_eager_validation_lazy_stream okAdapter (freshSession 2)
      none rfl).2 [1, 2] ?_ ?_
    · show resolvePageNumbers none 2 = .ok [1, 2]
      simp only [resolvePageNumbers]
      norm_num [List.range_succ]
    · intro p _
      exact ⟨⟨p, 2, 0, 612, 792⟩, rfl⟩
  · refine (renderPages_eager_validation_lazy_stream okAdapter (freshSession 2)
      (some (.list [3])) rfl).1 _ ?_
    show resolvePageNumbers (some (.list [3])) 2 = .error (invalidPageErr 3 2)
    have : firstOutOfRange 2 [3] = some 3 := by
      simp only [firstOutOfRange]
      rw [if_pos (by norm_num)]
    simp [resolvePageNumbers, this]

/-- Claim C10: calling `renderPages` is itself total — `renderPagesCall`
merely captures the receiver and options and returns a generator object —
and the `DOCUMENT_CLOSED` or `INVALID_PAGE_NUMBER` errors surface only
when the consumer first advances the generator (`genRun`), with no
`RenderedPage` yielded in either case. -/
theorem renderPages_call_never_raises (a : Adapter) (s : Session)
    (sel : Option PageSel) :
    (renderPagesCall s sel).session = s
    ∧ (renderPagesCall s sel).pages = sel
    ∧ (s.closed = true →
        genRun a (renderPagesCall s sel) = .failed [] docClosedErr
        ∧ (genRun a (renderPagesCall s sel)).yielded = [])
    ∧ (∀ e, s.closed = false →
        resolvePageNumbers sel s.numPages = .error e →
        genRun a (renderPagesCall s sel) = .failed [] e
        ∧ (genRun a (renderPagesCall s sel)).yielded = []) := by
  refine ⟨rfl, rfl, ?_, ?_⟩
  · intro hclosed
    have h : genRun a (renderPagesCall s sel) = .failed [] docClosedErr := by
      rw [genRun, if_pos (by simpa [renderPagesCall] using hclosed)]
    exact ⟨h, by rw [h]; rfl⟩
  · intro e hopen he
    have h : genRun a (renderPagesCall s sel) = .failed [] e := by
      rw [genRun, if_neg (by simp [renderPagesCall, hopen])]
      simp only [renderPagesCall] at he ⊢
      rw [he]
    exact ⟨h, by rw [h]; rfl⟩

/-- Witness for C10: a closed 5-page session raises `DOCUMENT_CLOSED` only
at the first advance, yielding nothing. -/
theorem renderPages_call_never_raises_witness :
    genRun okAdapter (renderPagesCall ⟨true, 5, 1⟩ none) =
        .failed [] docClosedErr
    ∧ (genRun okAdapter (renderPagesCall ⟨true, 5, 1⟩ none)).yielded = [] :=
  (renderPages_call_never_raises okAdapter ⟨true, 5, 1⟩ none).2.2.1 rfl

/-! ## Auto-close of the convenience generator -/

/-- Claim C7: once `renderPdfPages` has opened a fresh session, every way
consumption can end — exhaustion, early termination after any number of
items, or an error raised during rendering — leaves the session closed,
with the handle released exactly once; and what was delivered is a prefix
of what the session's own `renderPages` generator produces (the wrapper
adds no pages of its own). -/
theorem renderPdfPages_always_closes (a : Adapter) (b : Bool) (s : Session)
    (sel : Option PageSel) (c : Consumption)
    (hopen : s.closed = false) (hfresh : s.destroyed = 0) :
    let r := renderPdfPagesRun a b s sel c
    r.finalSession.closed = true
    ∧ r.finalSession.destroyed = 1
    ∧ r.yielded <+: (genRun a (renderPagesCall s sel)).yielded := by
  intro r
  have hclose : (closeSession b s).1 =
      { s with closed := true, destroyed := s.destroyed + 1 } := by
    rw [closeSession, if_neg (by rw [hopen]; exact Bool.false_ne_true)]
  refine ⟨?_, ?_, ?_⟩
  · show (renderPdfPagesRun a b s sel c).finalSession.closed = true
    rw [renderPdfPagesRun, hclose]
  · show (renderPdfPagesRun a b s sel c).finalSession.destroyed = 1
    rw [renderPdfPagesRun, hclose]
    simp [hfresh]
  · show (renderPdfPagesRun a b s sel c).yielded <+:
      (genRun a (renderPagesCall s sel)).yielded
    rw [renderPdfPagesRun]
    cases hout : genRun a (renderPagesCall s sel) with
    | done ys =>
      cases c with
      | all => simp [consumed, GenOutcome.yielded]
      | stopAfter k => simpa [consumed, GenOutcome.yielded] using List.take_prefix k ys
    | failed ys e =>
      cases c with
      | all => simp [consumed, GenOutcome.yielded]
      | stopAfter k =>
        by_cases hk : k ≤ ys.length
        · simpa [consumed, GenOutcome.yielded, if_pos hk] using List.take_prefix k ys
        · simp [consumed, GenOutcome.yielded, if_neg hk]

/-- Witness for C7: over a fresh 2-page session, exhaustion, abandonment
after one page, and a mid-stream render failure all leave the session
closed with one destroy. -/
theorem renderPdfPages_always_closes_witness :
    ((renderPdfPagesRun okAdapter false (freshSession 2) none
        Consumption.all).finalSession.closed = true)
    ∧ ((renderPdfPagesRun okAdapter false (freshSession 2) none
        (Consumption.stopAfter 1)).finalSession.destroyed = 1)
    ∧ ((renderPdfPagesRun (fun _ => .error "engine crash") true (freshSession 2)
        none Consumption.all).finalSession.closed = true) :=
  ⟨(renderPdfPages_always_closes okAdapter false (freshSession 2) none
      Consumption.all rfl rfl).1,
    (renderPdfPages_always_closes okAdapter false (freshSession 2) none
      (Consumption.stopAfter 1) rfl rfl).2.1,
    (renderPdfPages_always_closes (fun _ => .error "engine crash") true
      (freshSession 2) none Consumption.all rfl rfl).1⟩

/-! ## Error classification theorems -/

/-- Counterexample to C5 as stated: the PDFium classifier checks the
structural tokens *before* the password tokens, so the message
`Invalid password` — which contains `password` but neither `incorrect`
nor `wrong`, and which the claim therefore sends to `PASSWORD_REQUIRED` —
is classified `INVALID_PDF` because it also contains `invalid`. -/
theorem wrap_error_priority_cex :
    strIncludes (strLower "Invalid password") "password" = true
    ∧ strIncludes (strLower "Invalid password") "incorrect" = false
    ∧ strIncludes (strLower "Invalid password") "wrong" = false
    ∧ (wrapPdfiumError "Invalid password").code = .INVALID_PDF
    ∧ (wrapPdfiumError "Invalid password").code ≠ .PASSWORD_REQUIRED := by
  refine ⟨by decide, by decide, by decide, by decide, by decide⟩

/-- Claim C5 (amended): the PDFium classifier lowercases the adapter's
error text and matches with the structural tokens taking priority —
`invalid` / `not a pdf` / `format` yield `INVALID_PDF`; otherwise
`password` yields `INVALID_PASSWORD` when `incorrect` or `wrong` is also
present and `PASSWORD_REQUIRED` when not; anything else is `UNKNOWN`.
The pdfjs classifier matches case-sensitively on `Invalid PDF`, then
`password` with `incorrect` (no `wrong` token), with the same priority
shape. -/
theorem wrap_error_classification (m : String) :
    (((strIncludes (strLower m) "invalid" || strIncludes (strLower m) "not a pdf" ||
        strIncludes (strLower m) "format") = true →
        (wrapPdfiumError m).code = .INVALID_PDF)
    ∧ ((strIncludes (strLower m) "invalid" || strIncludes (strLower m) "not a pdf" ||
        strIncludes (strLower m) "format") = false →
        strIncludes (strLower m) "password" = true →
        (((strIncludes (strLower m) "incorrect" || strIncludes (strLower m) "wrong") = true →
            (wrapPdfiumError m).code = .INVALID_PASSWORD)
          ∧ ((strIncludes (strLower m) "incorrect" || strIncludes (strLower m) "wrong") = false →
            (wrapPdfiumError m).code = .PASSWORD_REQUIRED)))
    ∧ ((strIncludes (strLower m) "invalid" || strIncludes (strLower m) "not a pdf" ||
        strIncludes (strLower m) "format") = false →
        strIncludes (strLower m) "password" = false →
        wrapPdfiumError m = ⟨.UNKNOWN, .raw m⟩))
    ∧ ((strIncludes m "Invalid PDF" = true → (wrapPdfjsError m).code = .INVALID_PDF)
    ∧ (strIncludes m "Invalid PDF" = false → strIncludes m "password" = true →
        ((strIncludes m "incorrect" = true → (wrapPdfjsError m).code = .INVALID_PASSWORD)
          ∧ (strIncludes m "incorrect" = false →
            (wrapPdfjsError m).code = .PASSWORD_REQUIRED)))
    ∧ (strIncludes m "Invalid PDF" = false → strIncludes m "password" = false →
        wrapPdfjsError m = ⟨.UNKNOWN, .raw m⟩)) := by
  refine ⟨⟨?_, ?_, ?_⟩, ?_, ?_, ?_⟩
  · intro h
    simp [wrapPdfiumError, h]
  · intro h hpw
    constructor
    · intro hiw
      simp [wrapPdfiumError, h, hpw, hiw]
    · intro hiw
      simp [wrapPdfiumError, h, hpw, hiw]
  · intro h hpw
    simp [wrapPdfiumError, h, hpw]
  · intro h
    simp [wrapPdfjsError, h]
  · intro h hpw
    constructor
    · intro hic
      simp [wrapPdfjsError, h, hpw, hic]
    · intro hic
      simp [wrapPdfjsError, h, hpw, hic]
  · intro h hpw
    simp [wrapPdfjsError, h, hpw]

/-- Witness for C5 (amended) at the message `wrong password entered`:
case-insensitively classified `INVALID_PASSWORD` by the PDFium variant. -/
theorem wrap_error_classification_witness :
    (wrapPdfiumError "wrong PASSWORD entered").code = .INVALID_PASSWORD :=
  ((wrap_error_classification "wrong PASSWORD entered").1.2.1
    (by decide) (by decide)).1 (by decide)

end PdfSimple
